import Mathlib

/-!
Shallow embedding of the SAP CAP helpdesk service: the business logic of
`srv/helpdesk-service.js` over the entities of `db/schema.cds`.

Modelling conventions:
* Timestamps (`new Date()`) are abstracted as a `Time` record carrying the
  calendar year (`getFullYear()`) and a linear instant used for ISO strings.
* Entity keys (cuid/UUID) are abstracted as natural numbers.
* The string-typed enum columns of the schema (`TicketStatus : String(20)`,
  `TicketPriority : String(10)`) stay plain strings, exactly as stored.
* The persistent store is a `DB` record of entity lists; `SELECT.one ... where ID`
  is `List.find?`, `UPDATE ... set ... where ID` maps over the list, and
  `INSERT ... entries` appends.
* A handler that calls `req.error(code, msg)` is an `Except.error` carrying the
  error kind: 400 `validation`, 404 `notFound`, 409 `conflict`.
* JavaScript truthiness of optional string parameters (`x || d`) is modelled by
  `jsOr`: `undefined`/`null`/`""` all fall back to the default.
-/

structure Time where
  year : Nat
  t : Nat
  deriving DecidableEq, Repr

/-- JavaScript `x || d` for an optional string `x`: `undefined`, `null` and the
empty string are falsy and fall back to `d`. -/
def jsOr (s : Option String) (d : String) : String :=
  match s with
  | some v => if v = "" then d else v
  | none => d

/-- JavaScript `x ? String(x) : null` for an optional string `x`. -/
def jsStr (s : Option String) : Option String :=
  match s with
  | some v => if v = "" then none else some v
  | none => none

/-- ASCII whitespace, for JavaScript `String.prototype.trim`. -/
def isWS (c : Char) : Bool :=
  c == ' ' || c == '\t' || c == '\n' || c == '\r'

/-- Length of a string after JavaScript `trim()` (leading and trailing
whitespace removed). -/
def trimLen (s : String) : Nat :=
  ((s.data.dropWhile isWS).reverse.dropWhile isWS).length

/-- JavaScript `!x || x.trim().length < n` for an optional string `x`
(`helpdesk-service.js` uses this shape for every minimum-length check). -/
def tooShort (s : Option String) (n : Nat) : Bool :=
  trimLen (jsOr s "") < n

/-- Lexicographic order on character lists by code point, the collation behind
SQL `ORDER BY` on a string column. -/
def charListLT : List Char → List Char → Bool
  | [], [] => false
  | [], _ :: _ => true
  | _ :: _, [] => false
  | a :: as, b :: bs =>
    if a.toNat < b.toNat then true
    else if b.toNat < a.toNat then false
    else charListLT as bs

/-- Lexicographic string order by code point. -/
def strLT (a b : String) : Bool := charListLT a.data b.data

/-- Entity `helpdesk.Tickets` of `db/schema.cds` (the association columns keep
only their foreign keys; `createdAt` comes from the `managed` aspect). -/
structure Ticket where
  ID : Nat
  ticketNumber : String
  title : String
  description : String
  status : String
  priority : String
  category : Option Nat
  department : Option Nat
  reporter : Option Nat
  assignedTo : Option Nat
  resolvedAt : Option Time
  closedAt : Option Time
  dueDate : Option Time
  resolutionNote : Option String
  createdAt : Time
  deriving DecidableEq, Repr

/-- Entity `helpdesk.Agents` (the fields the service logic reads). -/
structure Agent where
  ID : Nat
  name : String
  isActive : Bool
  deriving DecidableEq, Repr

/-- Entity `helpdesk.Categories` (the fields the service logic reads). -/
structure Category where
  ID : Nat
  slaHours : Option Nat
  deriving DecidableEq, Repr

/-- Entity `helpdesk.Comments`. -/
structure Comment where
  ticket_ID : Nat
  content : String
  isInternal : Bool
  authorName : String
  authorEmail : String
  deriving DecidableEq, Repr

/-- Entity `helpdesk.AuditLogs`. -/
structure AuditLog where
  ticket_ID : Nat
  action : String
  oldValue : Option String
  newValue : Option String
  performedBy : String
  performedAt : Time
  deriving DecidableEq, Repr

/-- The persistent store backing the service. -/
structure DB where
  tickets : List Ticket
  agents : List Agent
  categories : List Category
  comments : List Comment
  auditLogs : List AuditLog
  deriving DecidableEq, Repr

/-- The three error kinds raised via `req.error` in `helpdesk-service.js`:
400 validation, 404 not found, 409 conflict. The fourth constructor `jsError`
stands for a request that aborts outside the modelled handler code: the
escalate handler can hand a non-string value (a member inherited from
`Object.prototype`) to the store layer, and the embedding only records that the
request then fails with no handler write observed. -/
inductive SvcError where
  | notFound (msg : String)
  | validation (msg : String)
  | conflict (msg : String)
  | jsError (msg : String)
  deriving DecidableEq, Repr

/-- `SELECT.one.from(Tickets).where({ ID })`. -/
def findTicket (db : DB) (id : Nat) : Option Ticket :=
  db.tickets.find? (fun t => t.ID == id)

/-- `UPDATE(Tickets).set(...).where({ ID })`: apply `f` to the row(s) keyed by `id`. -/
def updateTicket (db : DB) (id : Nat) (f : Ticket → Ticket) : DB :=
  { db with tickets := db.tickets.map (fun t => if t.ID == id then f t else t) }

/-- `INSERT.into(Comments).entries(...)`. -/
def addComment (db : DB) (c : Comment) : DB :=
  { db with comments := db.comments ++ [c] }

/-- Helper `_logAudit(ticketID, action, oldValue, newValue, performedBy)`:
appends one `AuditLogs` row with a server-assigned timestamp. -/
def logAudit (db : DB) (tid : Nat) (action : String) (oldV newV : Option String)
    (performedBy : String) (now : Time) : DB :=
  { db with auditLogs := db.auditLogs ++
      [{ ticket_ID := tid, action := action, oldValue := jsStr oldV,
         newValue := jsStr newV, performedBy := jsOr (some performedBy) "System",
         performedAt := now }] }

/-- The trailing `return await SELECT.one.from(Tickets).where({ ID })` of every
action handler: reload the affected ticket. -/
def reload (db : DB) (id : Nat) : Except SvcError (DB × Ticket) :=
  match findTicket db id with
  | some t => Except.ok (db, t)
  | none => Except.error (SvcError.notFound "Ticket not found")

/-- The `validPriorities` array of the `changePriority` handler. -/
def validPriorities : List String := ["LOW", "MEDIUM", "HIGH", "CRITICAL"]

/-- Property names of `Object.prototype`: looking any of these up on a plain
object literal such as `levels` consults the prototype chain and returns an
inherited function (or, for `__proto__`, an object), which is truthy. -/
def objectProtoKeys : List String :=
  ["constructor", "hasOwnProperty", "isPrototypeOf", "propertyIsEnumerable",
   "toLocaleString", "toString", "valueOf", "__defineGetter__",
   "__defineSetter__", "__lookupGetter__", "__lookupSetter__", "__proto__"]

/-- A JavaScript value as it flows out of the `levels[current] || 'HIGH'`
expression: either a string, or the truthy member inherited from
`Object.prototype` when `current` is one of its property names. -/
inductive JsVal where
  | str (s : String)
  | protoFn (name : String)
  deriving DecidableEq, Repr

/-- Helper `_escalatePriority(current)`: the `levels` object-literal lookup with
the `|| 'HIGH'` default. JavaScript property lookup consults the prototype
chain, so for a `current` equal to an `Object.prototype` property name the
lookup returns the inherited truthy member and the `|| 'HIGH'` default does not
fire; only a lookup that is `undefined` falls back to HIGH. -/
def escalatePriority (current : String) : JsVal :=
  if current = "LOW" then JsVal.str "MEDIUM"
  else if current = "MEDIUM" then JsVal.str "HIGH"
  else if current = "HIGH" then JsVal.str "CRITICAL"
  else if current = "CRITICAL" then JsVal.str "CRITICAL"
  else if current ∈ objectProtoKeys then JsVal.protoFn current
  else JsVal.str "HIGH"

/-- The `.set` payload of `assignAgent`. -/
def fAssign (aid : Nat) (u : Ticket) : Ticket :=
  { u with assignedTo := some aid, status := "IN_PROGRESS" }

/-- The `.set` payload of `changePriority`. -/
def fPriority (p : String) (u : Ticket) : Ticket :=
  { u with priority := p }

/-- The `.set` payload of `resolveTicket`. -/
def fResolve (note : Option String) (now : Time) (u : Ticket) : Ticket :=
  { u with status := "RESOLVED", resolvedAt := some now, resolutionNote := note }

/-- The `.set` payload of `closeTicket` (note: `resolvedAt` is not touched). -/
def fClose (now : Time) (u : Ticket) : Ticket :=
  { u with status := "CLOSED", closedAt := some now }

/-- The `.set` payload of `escalateTicket`. -/
def fEscalate (p : String) (u : Ticket) : Ticket :=
  { u with priority := p, status := "IN_PROGRESS" }

/-- The `.set` payload of `reopenTicket`. -/
def fReopen (u : Ticket) : Ticket :=
  { u with status := "OPEN", resolvedAt := none, closedAt := none,
           resolutionNote := none }

/-- ACTION `assignAgent(ticketID, agentID, remarks)`. -/
def assignAgent (db : DB) (ticketID agentID : Nat) (remarks : Option String)
    (now : Time) : Except SvcError (DB × Ticket) :=
  match findTicket db ticketID with
  | none => Except.error (SvcError.notFound "Ticket not found")
  | some ticket =>
    if ticket.status = "CLOSED" then
      Except.error (SvcError.conflict "Cannot assign agent to a closed ticket")
    else
      match db.agents.find? (fun a => a.ID == agentID && a.isActive) with
      | none => Except.error (SvcError.notFound "Active agent not found")
      | some agent =>
        let db1 := updateTicket db ticketID (fAssign agentID)
        let db2 := logAudit db1 ticketID "Agent Assigned"
          (some (match ticket.assignedTo with
                 | some a => "Agent: " ++ toString a
                 | none => "Unassigned"))
          (some ("Agent: " ++ agent.name)) (jsOr remarks "System") now
        reload db2 ticketID

/-- ACTION `changePriority(ticketID, priority, reason)`. -/
def changePriority (db : DB) (ticketID : Nat) (priority : String)
    (reason : Option String) (now : Time) : Except SvcError (DB × Ticket) :=
  if validPriorities.contains priority then
    match findTicket db ticketID with
    | none => Except.error (SvcError.notFound "Ticket not found")
    | some ticket =>
      let db1 := updateTicket db ticketID (fPriority priority)
      let db2 := logAudit db1 ticketID "Priority Changed"
        (some ticket.priority) (some priority) (jsOr reason "System") now
      reload db2 ticketID
  else
    Except.error (SvcError.validation "Invalid priority")

/-- ACTION `resolveTicket(ticketID, resolutionNote, agentName)`. -/
def resolveTicket (db : DB) (ticketID : Nat) (resolutionNote agentName : Option String)
    (now : Time) : Except SvcError (DB × Ticket) :=
  match findTicket db ticketID with
  | none => Except.error (SvcError.notFound "Ticket not found")
  | some ticket =>
    if ticket.status = "RESOLVED" ∨ ticket.status = "CLOSED" then
      Except.error (SvcError.conflict "Ticket is already resolved or closed")
    else if tooShort resolutionNote 10 then
      Except.error (SvcError.validation "Resolution note must be at least 10 characters long")
    else
      let db1 := updateTicket db ticketID (fResolve resolutionNote now)
      let db2 := addComment db1
        { ticket_ID := ticketID,
          content := "Ticket resolved. Note: " ++ jsOr resolutionNote "",
          isInternal := false,
          authorName := jsOr agentName "Support Agent",
          authorEmail := "" }
      let db3 := logAudit db2 ticketID "Ticket Resolved"
        (some ticket.status) (some "RESOLVED") (jsOr agentName "System") now
      reload db3 ticketID

/-- ACTION `closeTicket(ticketID, agentName)`. -/
def closeTicket (db : DB) (ticketID : Nat) (agentName : Option String)
    (now : Time) : Except SvcError (DB × Ticket) :=
  match findTicket db ticketID with
  | none => Except.error (SvcError.notFound "Ticket not found")
  | some ticket =>
    if ticket.status = "CLOSED" then
      Except.error (SvcError.conflict "Ticket is already closed")
    else if ticket.status ≠ "RESOLVED" then
      Except.error (SvcError.conflict "Only resolved tickets can be closed")
    else
      let db1 := updateTicket db ticketID (fClose now)
      let db2 := logAudit db1 ticketID "Ticket Closed"
        (some "RESOLVED") (some "CLOSED") (jsOr agentName "System") now
      reload db2 ticketID

/-- ACTION `escalateTicket(ticketID, reason, agentName)`. When
`_escalatePriority` yields the inherited `Object.prototype` member instead of a
string, the handler passes that non-string to `UPDATE ... set` — behavior of
the store layer, not of `helpdesk-service.js`; the embedding records only that
the request then fails before any handler write is observed (`jsError`). -/
def escalateTicket (db : DB) (ticketID : Nat) (reason agentName : Option String)
    (now : Time) : Except SvcError (DB × Ticket) :=
  match findTicket db ticketID with
  | none => Except.error (SvcError.notFound "Ticket not found")
  | some ticket =>
    if ticket.status = "RESOLVED" ∨ ticket.status = "CLOSED" then
      Except.error (SvcError.conflict "Cannot escalate a resolved or closed ticket")
    else
      match escalatePriority ticket.priority with
      | JsVal.protoFn f =>
        Except.error (SvcError.jsError ("Priority lookup returned the inherited member " ++ f))
      | JsVal.str newPriority =>
        let db1 := updateTicket db ticketID (fEscalate newPriority)
        let db2 := addComment db1
          { ticket_ID := ticketID,
            content := "Ticket escalated. Reason: " ++ jsOr reason "No reason provided",
            isInternal := true,
            authorName := jsOr agentName "System",
            authorEmail := "" }
        let db3 := logAudit db2 ticketID "Ticket Escalated"
          (some ("Priority: " ++ ticket.priority))
          (some ("Priority: " ++ newPriority)) (jsOr agentName "System") now
        reload db3 ticketID

/-- ACTION `reopenTicket(ticketID, reason, agentName)`. -/
def reopenTicket (db : DB) (ticketID : Nat) (reason agentName : Option String)
    (now : Time) : Except SvcError (DB × Ticket) :=
  match findTicket db ticketID with
  | none => Except.error (SvcError.notFound "Ticket not found")
  | some ticket =>
    if ticket.status = "RESOLVED" ∨ ticket.status = "CLOSED" then
      if tooShort reason 5 then
        Except.error (SvcError.validation "A reason must be provided to reopen a ticket")
      else
        let db1 := updateTicket db ticketID fReopen
        let db2 := addComment db1
          { ticket_ID := ticketID,
            content := "Ticket reopened. Reason: " ++ jsOr reason "",
            isInternal := false,
            authorName := jsOr agentName "System",
            authorEmail := "" }
        let db3 := logAudit db2 ticketID "Ticket Reopened"
          (some ticket.status) (some "OPEN") (jsOr agentName "System") now
        reload db3 ticketID
    else
      Except.error (SvcError.conflict "Only resolved or closed tickets can be reopened")

/-- JavaScript `String(n).padStart(5, '0')`. -/
def padStart5 (n : Nat) : String :=
  let s := toString n
  String.mk (List.replicate (5 - s.length) '0') ++ s

/-- The ticket number computed by the `before CREATE` hook:
`count(*)` over all existing tickets, plus one, under the current year. -/
def genTicketNumber (db : DB) (now : Time) : String :=
  "TKT-" ++ toString now.year ++ "-" ++ padStart5 (db.tickets.length + 1)

/-- Payload of a `CREATE Tickets` request (the fields the hooks read; the new
row's key stands in for the generated cuid). -/
structure CreateData where
  ID : Nat
  title : Option String
  description : Option String
  priority : Option String
  category : Option Nat
  department : Option Nat
  reporter : Option Nat
  deriving DecidableEq, Repr

/-- The due-date part of the `before CREATE` hook: creation time plus the
category's SLA hours (skipped when the category or its `slaHours` is falsy). -/
def computeDueDate (db : DB) (d : CreateData) (now : Time) : Option Time :=
  match d.category with
  | none => none
  | some cid =>
    match db.categories.find? (fun c => c.ID == cid) with
    | none => none
    | some c =>
      match c.slaHours with
      | none => none
      | some h =>
        if h = 0 then none else some { year := now.year, t := now.t + h * 3600 }

/-- The row inserted by `CREATE Tickets` after the `before CREATE` hooks ran:
generated ticket number, computed due date, status forced to OPEN, priority
defaulted per the schema, timestamps empty. -/
def newTicket (db : DB) (d : CreateData) (now : Time) : Ticket :=
  { ID := d.ID,
    ticketNumber := genTicketNumber db now,
    title := jsOr d.title "",
    description := jsOr d.description "",
    status := "OPEN",
    priority := match d.priority with | some p => p | none => "MEDIUM",
    category := d.category,
    department := d.department,
    reporter := d.reporter,
    assignedTo := none,
    resolvedAt := none,
    closedAt := none,
    dueDate := computeDueDate db d now,
    resolutionNote := none,
    createdAt := now }

/-- The `CREATE Tickets` pipeline: the numbering/due-date/default-status hook,
then the validation hook, then the insert, then the `after CREATE` audit hook.
The duplicate-key guard models the store's primary-key constraint on the `cuid`
key (the insert itself is framework code, not a line of `helpdesk-service.js`). -/
def createTicket (db : DB) (d : CreateData) (now : Time) :
    Except SvcError (DB × Ticket) :=
  if tooShort d.title 5 then
    Except.error (SvcError.validation "Ticket title must be at least 5 characters long")
  else if tooShort d.description 10 then
    Except.error (SvcError.validation "Ticket description must be at least 10 characters long")
  else if d.reporter = none then
    Except.error (SvcError.validation "Reporter is required to create a ticket")
  else
    match findTicket db d.ID with
    | some _ => Except.error (SvcError.conflict "Duplicate ticket key")
    | none =>
      let t : Ticket := newTicket db d now
      let db1 : DB := { db with tickets := db.tickets ++ [t] }
      let db2 := logAudit db1 t.ID "Ticket Created" none (some t.status) "System" now
      Except.ok (db2, t)

/-- A generic `UPDATE Tickets` request with the `before UPDATE` guard of
`helpdesk-service.js`; the 404 on a missing key is the framework's own
behavior, the hook itself only rejects closed tickets. -/
def updateTickets (db : DB) (id : Nat) (payload : Ticket → Ticket) :
    Except SvcError DB :=
  match findTicket db id with
  | some t =>
    if t.status = "CLOSED" then
      Except.error (SvcError.conflict "Ticket is closed and cannot be modified")
    else
      Except.ok (updateTicket db id payload)
  | none => Except.error (SvcError.notFound "Ticket not found")

/-- The SQL collation order behind `orderBy('priority desc, createdAt asc')`:
`priority` is a string column, so `desc` is descending lexicographic string
order, with ties broken by ascending creation time. -/
def orderLE (a b : Ticket) : Bool :=
  if a.priority = b.priority then a.createdAt.t ≤ b.createdAt.t
  else strLT b.priority a.priority

/-- Insertion step of the sort used to model `orderBy`. -/
def insertLE (le : Ticket → Ticket → Bool) (x : Ticket) : List Ticket → List Ticket
  | [] => [x]
  | y :: ys => if le x y then x :: y :: ys else y :: insertLE le x ys

/-- Insertion sort used to model `orderBy`. -/
def sortLE (le : Ticket → Ticket → Bool) : List Ticket → List Ticket
  | [] => []
  | x :: xs => insertLE le x (sortLE le xs)

/-- FUNCTION `getAgentTickets(agentID)`: tickets of the agent that are not
closed, ordered by `priority desc, createdAt asc` under SQL string collation. -/
def getAgentTickets (db : DB) (agentID : Nat) : List Ticket :=
  sortLE orderLE
    (db.tickets.filter (fun t => t.assignedTo == some agentID && t.status != "CLOSED"))

/-- One lifecycle request, with the wall-clock time at which it runs. -/
inductive Op where
  | createOp (d : CreateData) (now : Time)
  | assignOp (ticketID agentID : Nat) (remarks : Option String) (now : Time)
  | priorityOp (ticketID : Nat) (priority : String) (reason : Option String) (now : Time)
  | resolveOp (ticketID : Nat) (note agentName : Option String) (now : Time)
  | closeOp (ticketID : Nat) (agentName : Option String) (now : Time)
  | escalateOp (ticketID : Nat) (reason agentName : Option String) (now : Time)
  | reopenOp (ticketID : Nat) (reason agentName : Option String) (now : Time)
  deriving DecidableEq, Repr

/-- Dispatch one lifecycle request to its handler. -/
def step (db : DB) : Op → Except SvcError (DB × Ticket)
  | Op.createOp d now => createTicket db d now
  | Op.assignOp tid aid r now => assignAgent db tid aid r now
  | Op.priorityOp tid p r now => changePriority db tid p r now
  | Op.resolveOp tid n a now => resolveTicket db tid n a now
  | Op.closeOp tid a now => closeTicket db tid a now
  | Op.escalateOp tid r a now => escalateTicket db tid r a now
  | Op.reopenOp tid r a now => reopenTicket db tid r a now

/-- The ticket a lifecycle request is about. -/
def opTicketID : Op → Nat
  | Op.createOp d _ => d.ID
  | Op.assignOp tid _ _ _ => tid
  | Op.priorityOp tid _ _ _ => tid
  | Op.resolveOp tid _ _ _ => tid
  | Op.closeOp tid _ _ => tid
  | Op.escalateOp tid _ _ _ => tid
  | Op.reopenOp tid _ _ _ => tid

/-- Run one request against the store: a rejected request leaves the store
untouched (every handler raises its errors before its first write). -/
def applyOp (db : DB) (op : Op) : DB :=
  match step db op with
  | Except.ok (db', _) => db'
  | Except.error _ => db

/-- Run a sequence of lifecycle requests. -/
def run (db : DB) (ops : List Op) : DB := ops.foldl applyOp db

/-- Analogue of `applyOp` for a generic `UPDATE Tickets` request. -/
def applyUpdate (db : DB) (id : Nat) (payload : Ticket → Ticket) : DB :=
  match updateTickets db id payload with
  | Except.ok db' => db'
  | Except.error _ => db

/-- The invariant claimed by the spec: `resolvedAt`/`closedAt` set if and only
if the status is RESOLVED/CLOSED respectively. -/
def claimInv (t : Ticket) : Prop :=
  (t.resolvedAt.isSome ↔ t.status = "RESOLVED") ∧
  (t.closedAt.isSome ↔ t.status = "CLOSED")

/-- The timestamp invariant the code actually maintains: `closedAt` is set iff
the status is CLOSED, and a RESOLVED or CLOSED ticket always carries
`resolvedAt` (but `resolvedAt` can outlive the RESOLVED status). -/
def lifecycleInv (t : Ticket) : Prop :=
  (t.closedAt.isSome ↔ t.status = "CLOSED") ∧
  ((t.status = "RESOLVED" ∨ t.status = "CLOSED") → t.resolvedAt.isSome)

/-- Store well-formedness: ticket keys are unique (primary key) and every
ticket satisfies the timestamp invariant. -/
def dbInv (db : DB) : Prop :=
  (db.tickets.map Ticket.ID).Nodup ∧ ∀ t ∈ db.tickets, lifecycleInv t

instance (t : Ticket) : Decidable (claimInv t) := by
  unfold claimInv; infer_instance

instance (t : Ticket) : Decidable (lifecycleInv t) := by
  unfold lifecycleInv; infer_instance

instance (db : DB) : Decidable (dbInv db) := by
  unfold dbInv; infer_instance

/-! ### Store lemmas -/

theorem findTicket_mem {db : DB} {id : Nat} {t : Ticket}
    (h : findTicket db id = some t) : t ∈ db.tickets :=
  List.mem_of_find?_eq_some h

theorem findTicket_id {db : DB} {id : Nat} {t : Ticket}
    (h : findTicket db id = some t) : t.ID = id := by
  have h2 := List.find?_some h
  simpa using h2

theorem findTicket_none {db : DB} {id : Nat} (h : findTicket db id = none) :
    ∀ t ∈ db.tickets, t.ID ≠ id := by
  intro t ht
  have := List.find?_eq_none.mp h t ht
  simpa using this

theorem find?_update (l : List Ticket) (id : Nat) (f : Ticket → Ticket)
    (hid : ∀ u, (f u).ID = u.ID) :
    (l.map (fun t => if t.ID == id then f t else t)).find? (fun t => t.ID == id)
      = (l.find? (fun t => t.ID == id)).map f := by
  induction l with
  | nil => rfl
  | cons x xs ih =>
    by_cases hx : x.ID = id
    · have hgx : (if x.ID == id then f x else x) = f x := by simp [hx]
      have h1 : ((f x).ID == id) = true := by simp [hid, hx]
      have h2 : (x.ID == id) = true := by simp [hx]
      rw [List.map_cons, hgx]
      simp only [List.find?_cons, h1, h2]
      rfl
    · have hgx : (if x.ID == id then f x else x) = x := by simp [hx]
      have h0 : (x.ID == id) = false := by simp [hx]
      rw [List.map_cons, hgx]
      simp only [List.find?_cons, h0]
      exact ih

theorem findTicket_updateTicket (db : DB) (id : Nat) (f : Ticket → Ticket)
    (hid : ∀ u, (f u).ID = u.ID) :
    findTicket (updateTicket db id f) id = (findTicket db id).map f :=
  find?_update db.tickets id f hid

theorem mem_update (l : List Ticket) (id : Nat) (f : Ticket → Ticket) (t' : Ticket)
    (h : t' ∈ l.map (fun t => if t.ID == id then f t else t)) :
    (∃ t, t ∈ l ∧ t.ID = id ∧ t' = f t) ∨ t' ∈ l := by
  rcases List.mem_map.1 h with ⟨t, ht, rfl⟩
  by_cases hid : t.ID = id
  · exact Or.inl ⟨t, ht, hid, by simp [hid]⟩
  · right
    simpa [hid] using ht

theorem nodup_find_eq (l : List Ticket) (hnd : (l.map Ticket.ID).Nodup) (id : Nat)
    (t0 : Ticket) (hf : l.find? (fun t => t.ID == id) = some t0)
    (t : Ticket) (ht : t ∈ l) (hid : t.ID = id) : t = t0 := by
  have h0m := List.mem_of_find?_eq_some hf
  have h0id : t0.ID = id := by simpa using List.find?_some hf
  exact List.inj_on_of_nodup_map hnd ht h0m (by rw [hid, h0id])

theorem map_id_update (l : List Ticket) (id : Nat) (f : Ticket → Ticket)
    (hid : ∀ u, (f u).ID = u.ID) :
    (l.map (fun t => if t.ID == id then f t else t)).map Ticket.ID = l.map Ticket.ID := by
  rw [List.map_map]
  apply List.map_congr_left
  intro u _
  by_cases hu : u.ID = id <;> simp [hu, hid]

theorem findTicket_logAudit (db : DB) (tid0 : Nat) (a : String) (o n : Option String)
    (pb : String) (now : Time) (id : Nat) :
    findTicket (logAudit db tid0 a o n pb now) id = findTicket db id := rfl

theorem findTicket_addComment (db : DB) (c : Comment) (id : Nat) :
    findTicket (addComment db c) id = findTicket db id := rfl

theorem tickets_logAudit (db : DB) (tid0 : Nat) (a : String) (o n : Option String)
    (pb : String) (now : Time) :
    (logAudit db tid0 a o n pb now).tickets = db.tickets := rfl

theorem tickets_addComment (db : DB) (c : Comment) :
    (addComment db c).tickets = db.tickets := rfl

theorem auditLogs_updateTicket (db : DB) (id : Nat) (f : Ticket → Ticket) :
    (updateTicket db id f).auditLogs = db.auditLogs := rfl

theorem auditLogs_addComment (db : DB) (c : Comment) :
    (addComment db c).auditLogs = db.auditLogs := rfl

theorem auditLogs_logAudit (db : DB) (tid0 : Nat) (a : String) (o n : Option String)
    (pb : String) (now : Time) :
    (logAudit db tid0 a o n pb now).auditLogs = db.auditLogs ++
      [{ ticket_ID := tid0, action := a, oldValue := jsStr o, newValue := jsStr n,
         performedBy := jsOr (some pb) "System", performedAt := now }] := rfl

theorem fAssign_ID (aid : Nat) (u : Ticket) : (fAssign aid u).ID = u.ID := rfl
theorem fPriority_ID (p : String) (u : Ticket) : (fPriority p u).ID = u.ID := rfl
theorem fResolve_ID (note : Option String) (now : Time) (u : Ticket) :
    (fResolve note now u).ID = u.ID := rfl
theorem fClose_ID (now : Time) (u : Ticket) : (fClose now u).ID = u.ID := rfl
theorem fEscalate_ID (p : String) (u : Ticket) : (fEscalate p u).ID = u.ID := rfl
theorem fReopen_ID (u : Ticket) : (fReopen u).ID = u.ID := rfl

theorem reload_eq (db : DB) (id : Nat) (t : Ticket) (h : findTicket db id = some t) :
    reload db id = Except.ok (db, t) := by
  unfold reload
  rw [h]

/-! ### `closeTicket` lemmas -/

theorem closeTicket_ok (db : DB) (tid : Nat) (an : Option String) (now : Time)
    (t : Ticket) (hf : findTicket db tid = some t) (hs : t.status = "RESOLVED") :
    closeTicket db tid an now =
      Except.ok (logAudit (updateTicket db tid (fClose now)) tid "Ticket Closed"
        (some "RESOLVED") (some "CLOSED") (jsOr an "System") now, fClose now t) := by
  have h1 : ¬ t.status = "CLOSED" := by rw [hs]; decide
  have h2 : ¬ t.status ≠ "RESOLVED" := by rw [hs]; decide
  have h3 : findTicket (logAudit (updateTicket db tid (fClose now)) tid "Ticket Closed"
      (some "RESOLVED") (some "CLOSED") (jsOr an "System") now) tid
      = some (fClose now t) := by
    rw [findTicket_logAudit, findTicket_updateTicket db tid _ (fClose_ID now), hf]
    rfl
  simp only [closeTicket, hf, if_neg h1, if_neg h2]
  exact reload_eq _ _ _ h3

theorem closeTicket_err (db : DB) (tid : Nat) (an : Option String) (now : Time)
    (t : Ticket) (hf : findTicket db tid = some t) (hs : t.status ≠ "RESOLVED") :
    ∃ m, closeTicket db tid an now = Except.error (SvcError.conflict m) := by
  by_cases hc : t.status = "CLOSED"
  · exact ⟨"Ticket is already closed", by simp only [closeTicket, hf, if_pos hc]⟩
  · exact ⟨"Only resolved tickets can be closed",
      by simp only [closeTicket, hf, if_neg hc, if_pos hs]⟩

/-! ### `assignAgent` lemmas -/

theorem assignAgent_ok (db : DB) (tid aid : Nat) (r : Option String) (now : Time)
    (t : Ticket) (agent : Agent) (hf : findTicket db tid = some t)
    (hc : ¬ t.status = "CLOSED")
    (ha : db.agents.find? (fun a => a.ID == aid && a.isActive) = some agent) :
    assignAgent db tid aid r now =
      Except.ok (logAudit (updateTicket db tid (fAssign aid)) tid "Agent Assigned"
        (some (match t.assignedTo with
               | some a => "Agent: " ++ toString a
               | none => "Unassigned"))
        (some ("Agent: " ++ agent.name)) (jsOr r "System") now, fAssign aid t) := by
  have h3 : findTicket (logAudit (updateTicket db tid (fAssign aid)) tid "Agent Assigned"
      (some (match t.assignedTo with
             | some a => "Agent: " ++ toString a
             | none => "Unassigned"))
      (some ("Agent: " ++ agent.name)) (jsOr r "System") now) tid
      = some (fAssign aid t) := by
    rw [findTicket_logAudit, findTicket_updateTicket db tid _ (fAssign_ID aid), hf]
    rfl
  simp only [assignAgent, hf, if_neg hc, ha]
  exact reload_eq _ _ _ h3

theorem assignAgent_closed (db : DB) (tid aid : Nat) (r : Option String) (now : Time)
    (t : Ticket) (hf : findTicket db tid = some t) (hs : t.status = "CLOSED") :
    assignAgent db tid aid r now =
      Except.error (SvcError.conflict "Cannot assign agent to a closed ticket") := by
  simp only [assignAgent, hf, if_pos hs]

/-! ### `changePriority` lemmas -/

theorem changePriority_ok (db : DB) (tid : Nat) (p : String) (r : Option String)
    (now : Time) (t : Ticket) (hf : findTicket db tid = some t)
    (hp : validPriorities.contains p = true) :
    changePriority db tid p r now =
      Except.ok (logAudit (updateTicket db tid (fPriority p)) tid "Priority Changed"
        (some t.priority) (some p) (jsOr r "System") now, fPriority p t) := by
  have h3 : findTicket (logAudit (updateTicket db tid (fPriority p)) tid "Priority Changed"
      (some t.priority) (some p) (jsOr r "System") now) tid = some (fPriority p t) := by
    rw [findTicket_logAudit, findTicket_updateTicket db tid _ (fPriority_ID p), hf]
    rfl
  simp only [changePriority, hp, if_pos, hf]
  exact reload_eq _ _ _ h3

theorem changePriority_invalid (db : DB) (tid : Nat) (p : String) (r : Option String)
    (now : Time) (hp : validPriorities.contains p = false) :
    changePriority db tid p r now =
      Except.error (SvcError.validation "Invalid priority") := by
  have hp2 : ¬ (validPriorities.contains p = true) := by rw [hp]; decide
  simp only [changePriority, if_neg hp2]

theorem changePriority_missing (db : DB) (tid : Nat) (p : String) (r : Option String)
    (now : Time) (hf : findTicket db tid = none)
    (hp : validPriorities.contains p = true) :
    changePriority db tid p r now =
      Except.error (SvcError.notFound "Ticket not found") := by
  simp only [changePriority, hp, if_pos, hf]

/-! ### `resolveTicket` lemmas -/

theorem resolveTicket_ok (db : DB) (tid : Nat) (note an : Option String) (now : Time)
    (t : Ticket) (hf : findTicket db tid = some t)
    (hs : ¬ (t.status = "RESOLVED" ∨ t.status = "CLOSED"))
    (hn : tooShort note 10 = false) :
    resolveTicket db tid note an now =
      Except.ok (logAudit (addComment (updateTicket db tid (fResolve note now))
          { ticket_ID := tid,
            content := "Ticket resolved. Note: " ++ jsOr note "",
            isInternal := false,
            authorName := jsOr an "Support Agent",
            authorEmail := "" })
          tid "Ticket Resolved" (some t.status) (some "RESOLVED")
          (jsOr an "System") now,
        fResolve note now t) := by
  have h3 : findTicket (logAudit (addComment (updateTicket db tid (fResolve note now))
      { ticket_ID := tid,
        content := "Ticket resolved. Note: " ++ jsOr note "",
        isInternal := false,
        authorName := jsOr an "Support Agent",
        authorEmail := "" })
      tid "Ticket Resolved" (some t.status) (some "RESOLVED")
      (jsOr an "System") now) tid = some (fResolve note now t) := by
    rw [findTicket_logAudit, findTicket_addComment,
        findTicket_updateTicket db tid _ (fResolve_ID note now), hf]
    rfl
  simp only [resolveTicket, hf, if_neg hs, hn, Bool.false_eq_true, if_false]
  exact reload_eq _ _ _ h3

theorem resolveTicket_conflict (db : DB) (tid : Nat) (note an : Option String)
    (now : Time) (t : Ticket) (hf : findTicket db tid = some t)
    (hs : t.status = "RESOLVED" ∨ t.status = "CLOSED") :
    resolveTicket db tid note an now =
      Except.error (SvcError.conflict "Ticket is already resolved or closed") := by
  simp only [resolveTicket, hf, if_pos hs]

theorem resolveTicket_validation (db : DB) (tid : Nat) (note an : Option String)
    (now : Time) (t : Ticket) (hf : findTicket db tid = some t)
    (hs : ¬ (t.status = "RESOLVED" ∨ t.status = "CLOSED"))
    (hn : tooShort note 10 = true) :
    resolveTicket db tid note an now =
      Except.error (SvcError.validation "Resolution note must be at least 10 characters long") := by
  simp only [resolveTicket, hf, if_neg hs, hn, if_true]

/-! ### `escalateTicket` lemmas -/

theorem escalateTicket_ok (db : DB) (tid : Nat) (r an : Option String) (now : Time)
    (t : Ticket) (np : String) (hf : findTicket db tid = some t)
    (hs : ¬ (t.status = "RESOLVED" ∨ t.status = "CLOSED"))
    (hnp : escalatePriority t.priority = JsVal.str np) :
    escalateTicket db tid r an now =
      Except.ok (logAudit (addComment
          (updateTicket db tid (fEscalate np))
          { ticket_ID := tid,
            content := "Ticket escalated. Reason: " ++ jsOr r "No reason provided",
            isInternal := true,
            authorName := jsOr an "System",
            authorEmail := "" })
          tid "Ticket Escalated" (some ("Priority: " ++ t.priority))
          (some ("Priority: " ++ np)) (jsOr an "System") now,
        fEscalate np t) := by
  have h3 : findTicket (logAudit (addComment
      (updateTicket db tid (fEscalate np))
      { ticket_ID := tid,
        content := "Ticket escalated. Reason: " ++ jsOr r "No reason provided",
        isInternal := true,
        authorName := jsOr an "System",
        authorEmail := "" })
      tid "Ticket Escalated" (some ("Priority: " ++ t.priority))
      (some ("Priority: " ++ np)) (jsOr an "System") now) tid
      = some (fEscalate np t) := by
    rw [findTicket_logAudit, findTicket_addComment,
        findTicket_updateTicket db tid _ (fEscalate_ID _), hf]
    rfl
  simp only [escalateTicket, hf, if_neg hs, hnp]
  exact reload_eq _ _ _ h3

theorem escalateTicket_protoFn (db : DB) (tid : Nat) (r an : Option String)
    (now : Time) (t : Ticket) (f : String) (hf : findTicket db tid = some t)
    (hs : ¬ (t.status = "RESOLVED" ∨ t.status = "CLOSED"))
    (hnp : escalatePriority t.priority = JsVal.protoFn f) :
    escalateTicket db tid r an now =
      Except.error (SvcError.jsError
        ("Priority lookup returned the inherited member " ++ f)) := by
  simp only [escalateTicket, hf, if_neg hs, hnp]

theorem escalateTicket_conflict (db : DB) (tid : Nat) (r an : Option String)
    (now : Time) (t : Ticket) (hf : findTicket db tid = some t)
    (hs : t.status = "RESOLVED" ∨ t.status = "CLOSED") :
    escalateTicket db tid r an now =
      Except.error (SvcError.conflict "Cannot escalate a resolved or closed ticket") := by
  simp only [escalateTicket, hf, if_pos hs]

/-! ### `reopenTicket` lemmas -/

theorem reopenTicket_ok (db : DB) (tid : Nat) (r an : Option String) (now : Time)
    (t : Ticket) (hf : findTicket db tid = some t)
    (hs : t.status = "RESOLVED" ∨ t.status = "CLOSED")
    (hr : tooShort r 5 = false) :
    reopenTicket db tid r an now =
      Except.ok (logAudit (addComment (updateTicket db tid fReopen)
          { ticket_ID := tid,
            content := "Ticket reopened. Reason: " ++ jsOr r "",
            isInternal := false,
            authorName := jsOr an "System",
            authorEmail := "" })
          tid "Ticket Reopened" (some t.status) (some "OPEN") (jsOr an "System") now,
        fReopen t) := by
  have h3 : findTicket (logAudit (addComment (updateTicket db tid fReopen)
      { ticket_ID := tid,
        content := "Ticket reopened. Reason: " ++ jsOr r "",
        isInternal := false,
        authorName := jsOr an "System",
        authorEmail := "" })
      tid "Ticket Reopened" (some t.status) (some "OPEN") (jsOr an "System") now) tid
      = some (fReopen t) := by
    rw [findTicket_logAudit, findTicket_addComment,
        findTicket_updateTicket db tid _ fReopen_ID, hf]
    rfl
  simp only [reopenTicket, hf, if_pos hs, hr, Bool.false_eq_true, if_false]
  exact reload_eq _ _ _ h3

theorem reopenTicket_validation (db : DB) (tid : Nat) (r an : Option String)
    (now : Time) (t : Ticket) (hf : findTicket db tid = some t)
    (hs : t.status = "RESOLVED" ∨ t.status = "CLOSED")
    (hr : tooShort r 5 = true) :
    reopenTicket db tid r an now =
      Except.error (SvcError.validation "A reason must be provided to reopen a ticket") := by
  simp only [reopenTicket, hf, if_pos hs, hr, if_true]

theorem reopenTicket_conflict (db : DB) (tid : Nat) (r an : Option String)
    (now : Time) (t : Ticket) (hf : findTicket db tid = some t)
    (hs : ¬ (t.status = "RESOLVED" ∨ t.status = "CLOSED")) :
    reopenTicket db tid r an now =
      Except.error (SvcError.conflict "Only resolved or closed tickets can be reopened") := by
  simp only [reopenTicket, hf, if_neg hs]

/-! ### `createTicket` and `updateTickets` lemmas -/

theorem createTicket_ok (db : DB) (d : CreateData) (now : Time)
    (ht : tooShort d.title 5 = false) (hd : tooShort d.description 10 = false)
    (hr : ¬ d.reporter = none) (hid : findTicket db d.ID = none) :
    createTicket db d now =
      Except.ok (logAudit { db with tickets := db.tickets ++ [newTicket db d now] }
        d.ID "Ticket Created" none (some "OPEN") "System" now, newTicket db d now) := by
  simp only [createTicket, ht, hd, Bool.false_eq_true, if_false, if_neg hr, hid]
  rfl

theorem updateTickets_closed (db : DB) (id : Nat) (payload : Ticket → Ticket)
    (t : Ticket) (hf : findTicket db id = some t) (hs : t.status = "CLOSED") :
    updateTickets db id payload =
      Except.error (SvcError.conflict "Ticket is closed and cannot be modified") := by
  simp only [updateTickets, hf, if_pos hs]

/-! ### Success inversion lemmas -/

theorem assignAgent_ok_inv {db : DB} {tid aid : Nat} {r : Option String} {now : Time}
    {db' : DB} {t' : Ticket}
    (h : assignAgent db tid aid r now = Except.ok (db', t')) :
    ∃ t agent, findTicket db tid = some t ∧ ¬ t.status = "CLOSED" ∧
      db.agents.find? (fun a => a.ID == aid && a.isActive) = some agent ∧
      t' = fAssign aid t ∧
      db' = logAudit (updateTicket db tid (fAssign aid)) tid "Agent Assigned"
        (some (match t.assignedTo with
               | some a => "Agent: " ++ toString a
               | none => "Unassigned"))
        (some ("Agent: " ++ agent.name)) (jsOr r "System") now := by
  cases hf : findTicket db tid with
  | none => simp [assignAgent, hf] at h
  | some t =>
    by_cases hc : t.status = "CLOSED"
    · rw [assignAgent_closed db tid aid r now t hf hc] at h
      simp at h
    · cases ha : db.agents.find? (fun a => a.ID == aid && a.isActive) with
      | none => simp [assignAgent, hf, if_neg hc, ha] at h
      | some agent =>
        rw [assignAgent_ok db tid aid r now t agent hf hc ha] at h
        simp only [Except.ok.injEq, Prod.mk.injEq] at h
        exact ⟨t, agent, rfl, hc, rfl, h.2.symm, h.1.symm⟩

theorem changePriority_ok_inv {db : DB} {tid : Nat} {p : String} {r : Option String}
    {now : Time} {db' : DB} {t' : Ticket}
    (h : changePriority db tid p r now = Except.ok (db', t')) :
    ∃ t, validPriorities.contains p = true ∧ findTicket db tid = some t ∧
      t' = fPriority p t ∧
      db' = logAudit (updateTicket db tid (fPriority p)) tid "Priority Changed"
        (some t.priority) (some p) (jsOr r "System") now := by
  by_cases hp : validPriorities.contains p = true
  · cases hf : findTicket db tid with
    | none =>
      rw [changePriority_missing db tid p r now hf hp] at h
      simp at h
    | some t =>
      rw [changePriority_ok db tid p r now t hf hp] at h
      simp only [Except.ok.injEq, Prod.mk.injEq] at h
      exact ⟨t, hp, rfl, h.2.symm, h.1.symm⟩
  · rw [changePriority_invalid db tid p r now (Bool.eq_false_iff.mpr hp)] at h
    simp at h

theorem resolveTicket_ok_inv {db : DB} {tid : Nat} {note an : Option String}
    {now : Time} {db' : DB} {t' : Ticket}
    (h : resolveTicket db tid note an now = Except.ok (db', t')) :
    ∃ t, findTicket db tid = some t ∧
      ¬ (t.status = "RESOLVED" ∨ t.status = "CLOSED") ∧
      tooShort note 10 = false ∧
      t' = fResolve note now t ∧
      db' = logAudit (addComment (updateTicket db tid (fResolve note now))
          { ticket_ID := tid,
            content := "Ticket resolved. Note: " ++ jsOr note "",
            isInternal := false,
            authorName := jsOr an "Support Agent",
            authorEmail := "" })
          tid "Ticket Resolved" (some t.status) (some "RESOLVED")
          (jsOr an "System") now := by
  cases hf : findTicket db tid with
  | none => simp [resolveTicket, hf] at h
  | some t =>
    by_cases hs : t.status = "RESOLVED" ∨ t.status = "CLOSED"
    · rw [resolveTicket_conflict db tid note an now t hf hs] at h
      simp at h
    · cases hn : tooShort note 10 with
      | true =>
        rw [resolveTicket_validation db tid note an now t hf hs hn] at h
        simp at h
      | false =>
        rw [resolveTicket_ok db tid note an now t hf hs hn] at h
        simp only [Except.ok.injEq, Prod.mk.injEq] at h
        exact ⟨t, rfl, hs, rfl, h.2.symm, h.1.symm⟩

theorem closeTicket_ok_inv {db : DB} {tid : Nat} {an : Option String} {now : Time}
    {db' : DB} {t' : Ticket}
    (h : closeTicket db tid an now = Except.ok (db', t')) :
    ∃ t, findTicket db tid = some t ∧ t.status = "RESOLVED" ∧
      t' = fClose now t ∧
      db' = logAudit (updateTicket db tid (fClose now)) tid "Ticket Closed"
        (some "RESOLVED") (some "CLOSED") (jsOr an "System") now := by
  cases hf : findTicket db tid with
  | none => simp [closeTicket, hf] at h
  | some t =>
    by_cases hs : t.status = "RESOLVED"
    · rw [closeTicket_ok db tid an now t hf hs] at h
      simp only [Except.ok.injEq, Prod.mk.injEq] at h
      exact ⟨t, rfl, hs, h.2.symm, h.1.symm⟩
    · obtain ⟨m, hm⟩ := closeTicket_err db tid an now t hf hs
      rw [hm] at h
      simp at h

theorem escalateTicket_ok_inv {db : DB} {tid : Nat} {r an : Option String}
    {now : Time} {db' : DB} {t' : Ticket}
    (h : escalateTicket db tid r an now = Except.ok (db', t')) :
    ∃ t np, findTicket db tid = some t ∧
      ¬ (t.status = "RESOLVED" ∨ t.status = "CLOSED") ∧
      escalatePriority t.priority = JsVal.str np ∧
      t' = fEscalate np t ∧
      db' = logAudit (addComment
          (updateTicket db tid (fEscalate np))
          { ticket_ID := tid,
            content := "Ticket escalated. Reason: " ++ jsOr r "No reason provided",
            isInternal := true,
            authorName := jsOr an "System",
            authorEmail := "" })
          tid "Ticket Escalated" (some ("Priority: " ++ t.priority))
          (some ("Priority: " ++ np))
          (jsOr an "System") now := by
  cases hf : findTicket db tid with
  | none => simp [escalateTicket, hf] at h
  | some t =>
    by_cases hs : t.status = "RESOLVED" ∨ t.status = "CLOSED"
    · rw [escalateTicket_conflict db tid r an now t hf hs] at h
      simp at h
    · cases hnp : escalatePriority t.priority with
      | protoFn f =>
        rw [escalateTicket_protoFn db tid r an now t f hf hs hnp] at h
        simp at h
      | str np =>
        rw [escalateTicket_ok db tid r an now t np hf hs hnp] at h
        simp only [Except.ok.injEq, Prod.mk.injEq] at h
        exact ⟨t, np, rfl, hs, hnp, h.2.symm, h.1.symm⟩

theorem reopenTicket_ok_inv {db : DB} {tid : Nat} {r an : Option String}
    {now : Time} {db' : DB} {t' : Ticket}
    (h : reopenTicket db tid r an now = Except.ok (db', t')) :
    ∃ t, findTicket db tid = some t ∧
      (t.status = "RESOLVED" ∨ t.status = "CLOSED") ∧
      tooShort r 5 = false ∧
      t' = fReopen t ∧
      db' = logAudit (addComment (updateTicket db tid fReopen)
          { ticket_ID := tid,
            content := "Ticket reopened. Reason: " ++ jsOr r "",
            isInternal := false,
            authorName := jsOr an "System",
            authorEmail := "" })
          tid "Ticket Reopened" (some t.status) (some "OPEN")
          (jsOr an "System") now := by
  cases hf : findTicket db tid with
  | none => simp [reopenTicket, hf] at h
  | some t =>
    by_cases hs : t.status = "RESOLVED" ∨ t.status = "CLOSED"
    · cases hr : tooShort r 5 with
      | true =>
        rw [reopenTicket_validation db tid r an now t hf hs hr] at h
        simp at h
      | false =>
        rw [reopenTicket_ok db tid r an now t hf hs hr] at h
        simp only [Except.ok.injEq, Prod.mk.injEq] at h
        exact ⟨t, rfl, hs, rfl, h.2.symm, h.1.symm⟩
    · rw [reopenTicket_conflict db tid r an now t hf hs] at h
      simp at h

theorem createTicket_ok_inv {db : DB} {d : CreateData} {now : Time}
    {db' : DB} {t' : Ticket}
    (h : createTicket db d now = Except.ok (db', t')) :
    tooShort d.title 5 = false ∧ tooShort d.description 10 = false ∧
    ¬ d.reporter = none ∧ findTicket db d.ID = none ∧
    t' = newTicket db d now ∧
    db' = logAudit { db with tickets := db.tickets ++ [newTicket db d now] }
      d.ID "Ticket Created" none (some "OPEN") "System" now := by
  cases ht : tooShort d.title 5 with
  | true => simp [createTicket, ht] at h
  | false =>
    cases hd : tooShort d.description 10 with
    | true => simp [createTicket, ht, hd] at h
    | false =>
      by_cases hr : d.reporter = none
      · simp [createTicket, ht, hd, hr] at h
      · cases hid : findTicket db d.ID with
        | some u => simp [createTicket, ht, hd, hr, hid] at h
        | none =>
          rw [createTicket_ok db d now ht hd hr hid] at h
          simp only [Except.ok.injEq, Prod.mk.injEq] at h
          exact ⟨rfl, rfl, hr, rfl, h.2.symm, h.1.symm⟩

/-! ### Preservation of the timestamp invariant -/

theorem lifecycleInv_fAssign (aid : Nat) (t : Ticket) (hc : ¬ t.status = "CLOSED")
    (hinv : lifecycleInv t) : lifecycleInv (fAssign aid t) := by
  obtain ⟨h1, h2⟩ := hinv
  have hclosed : t.closedAt.isSome = false := by
    cases hx : t.closedAt.isSome
    · rfl
    · exact absurd (h1.mp hx) hc
  refine ⟨?_, ?_⟩
  · show t.closedAt.isSome ↔ ("IN_PROGRESS" = "CLOSED")
    rw [hclosed]
    constructor
    · intro hx; exact absurd hx (by decide)
    · intro hx; exact absurd hx (by decide)
  · show ("IN_PROGRESS" = "RESOLVED" ∨ "IN_PROGRESS" = "CLOSED") → t.resolvedAt.isSome
    intro hx
    rcases hx with hx | hx <;> exact absurd hx (by decide)

theorem lifecycleInv_fPriority (p : String) (t : Ticket)
    (hinv : lifecycleInv t) : lifecycleInv (fPriority p t) := hinv

theorem lifecycleInv_fResolve (note : Option String) (now : Time) (t : Ticket)
    (hs : ¬ (t.status = "RESOLVED" ∨ t.status = "CLOSED"))
    (hinv : lifecycleInv t) : lifecycleInv (fResolve note now t) := by
  obtain ⟨h1, h2⟩ := hinv
  have hc : ¬ t.status = "CLOSED" := fun hx => hs (Or.inr hx)
  have hclosed : t.closedAt.isSome = false := by
    cases hx : t.closedAt.isSome
    · rfl
    · exact absurd (h1.mp hx) hc
  refine ⟨?_, ?_⟩
  · show t.closedAt.isSome ↔ ("RESOLVED" = "CLOSED")
    rw [hclosed]
    constructor
    · intro hx; exact absurd hx (by decide)
    · intro hx; exact absurd hx (by decide)
  · intro _
    show (some now).isSome = true
    rfl

theorem lifecycleInv_fClose (now : Time) (t : Ticket) (hs : t.status = "RESOLVED")
    (hinv : lifecycleInv t) : lifecycleInv (fClose now t) := by
  obtain ⟨h1, h2⟩ := hinv
  refine ⟨?_, ?_⟩
  · show (some now).isSome ↔ ("CLOSED" = "CLOSED")
    exact ⟨fun _ => rfl, fun _ => rfl⟩
  · intro _
    show t.resolvedAt.isSome
    exact h2 (Or.inl hs)

theorem lifecycleInv_fEscalate (p : String) (t : Ticket)
    (hs : ¬ (t.status = "RESOLVED" ∨ t.status = "CLOSED"))
    (hinv : lifecycleInv t) : lifecycleInv (fEscalate p t) := by
  obtain ⟨h1, h2⟩ := hinv
  have hc : ¬ t.status = "CLOSED" := fun hx => hs (Or.inr hx)
  have hclosed : t.closedAt.isSome = false := by
    cases hx : t.closedAt.isSome
    · rfl
    · exact absurd (h1.mp hx) hc
  refine ⟨?_, ?_⟩
  · show t.closedAt.isSome ↔ ("IN_PROGRESS" = "CLOSED")
    rw [hclosed]
    constructor
    · intro hx; exact absurd hx (by decide)
    · intro hx; exact absurd hx (by decide)
  · show ("IN_PROGRESS" = "RESOLVED" ∨ "IN_PROGRESS" = "CLOSED") → t.resolvedAt.isSome
    intro hx
    rcases hx with hx | hx <;> exact absurd hx (by decide)

theorem lifecycleInv_fReopen (t : Ticket) : lifecycleInv (fReopen t) := by
  refine ⟨?_, ?_⟩
  · show (none : Option Time).isSome ↔ ("OPEN" = "CLOSED")
    constructor
    · intro hx; exact absurd hx (by decide)
    · intro hx; exact absurd hx (by decide)
  · show ("OPEN" = "RESOLVED" ∨ "OPEN" = "CLOSED") → (none : Option Time).isSome
    intro hx
    rcases hx with hx | hx <;> exact absurd hx (by decide)

theorem lifecycleInv_newTicket (db : DB) (d : CreateData) (now : Time) :
    lifecycleInv (newTicket db d now) := by
  refine ⟨?_, ?_⟩
  · show (none : Option Time).isSome ↔ ("OPEN" = "CLOSED")
    constructor
    · intro hx; exact absurd hx (by decide)
    · intro hx; exact absurd hx (by decide)
  · show ("OPEN" = "RESOLVED" ∨ "OPEN" = "CLOSED") → (none : Option Time).isSome
    intro hx
    rcases hx with hx | hx <;> exact absurd hx (by decide)

theorem dbInv_of_tickets_eq {db1 db2 : DB} (h : db2.tickets = db1.tickets)
    (hinv : dbInv db1) : dbInv db2 := by
  unfold dbInv at hinv ⊢
  rw [h]
  exact hinv

theorem dbInv_updateTicket (db : DB) (id : Nat) (f : Ticket → Ticket) (t : Ticket)
    (hdb : dbInv db) (hf : findTicket db id = some t)
    (hid : ∀ u, (f u).ID = u.ID) (hinv : lifecycleInv (f t)) :
    dbInv (updateTicket db id f) := by
  obtain ⟨hnd, hall⟩ := hdb
  constructor
  · show ((db.tickets.map fun u => if u.ID == id then f u else u).map Ticket.ID).Nodup
    rw [map_id_update db.tickets id f hid]
    exact hnd
  · intro t' ht'
    rcases mem_update db.tickets id f t' ht' with ⟨u, hu, huid, rfl⟩ | ht2
    · have heq : u = t := nodup_find_eq db.tickets hnd id t hf u hu huid
      rw [heq]
      exact hinv
    · exact hall t' ht2

theorem dbInv_insert (db : DB) (t : Ticket) (hdb : dbInv db)
    (hid : findTicket db t.ID = none) (hinv : lifecycleInv t) :
    dbInv { db with tickets := db.tickets ++ [t] } := by
  obtain ⟨hnd, hall⟩ := hdb
  constructor
  · show ((db.tickets ++ [t]).map Ticket.ID).Nodup
    rw [List.map_append]
    apply List.Nodup.append hnd (List.nodup_singleton _)
    intro a ha hb
    simp only [List.map_cons, List.map_nil, List.mem_singleton] at hb
    subst hb
    rcases List.mem_map.1 ha with ⟨u, hu, huid⟩
    exact findTicket_none hid u hu huid
  · intro t' ht'
    rcases List.mem_append.1 ht' with ht2 | ht2
    · exact hall t' ht2
    · rw [List.mem_singleton.1 ht2]
      exact hinv

theorem dbInv_applyOp (db : DB) (op : Op) (hdb : dbInv db) : dbInv (applyOp db op) := by
  cases hstep : step db op with
  | error e =>
    unfold applyOp
    rw [hstep]
    exact hdb
  | ok pr =>
    obtain ⟨db', t'⟩ := pr
    unfold applyOp
    rw [hstep]
    cases op with
    | createOp d now =>
      obtain ⟨ht, hd2, hr, hid, hteq, hdbeq⟩ := createTicket_ok_inv hstep
      subst hdbeq
      exact dbInv_of_tickets_eq rfl
        (dbInv_insert db (newTicket db d now) ⟨hdb.1, hdb.2⟩ hid
          (lifecycleInv_newTicket db d now))
    | assignOp tid aid r now =>
      obtain ⟨t, agent, hf, hc, ha, hteq, hdbeq⟩ := assignAgent_ok_inv hstep
      subst hdbeq
      exact dbInv_of_tickets_eq rfl
        (dbInv_updateTicket db tid (fAssign aid) t hdb hf (fAssign_ID aid)
          (lifecycleInv_fAssign aid t hc (hdb.2 t (findTicket_mem hf))))
    | priorityOp tid p r now =>
      obtain ⟨t, hp, hf, hteq, hdbeq⟩ := changePriority_ok_inv hstep
      subst hdbeq
      exact dbInv_of_tickets_eq rfl
        (dbInv_updateTicket db tid (fPriority p) t hdb hf (fPriority_ID p)
          (lifecycleInv_fPriority p t (hdb.2 t (findTicket_mem hf))))
    | resolveOp tid note an now =>
      obtain ⟨t, hf, hs, hn, hteq, hdbeq⟩ := resolveTicket_ok_inv hstep
      subst hdbeq
      exact dbInv_of_tickets_eq rfl
        (dbInv_updateTicket db tid (fResolve note now) t hdb hf (fResolve_ID note now)
          (lifecycleInv_fResolve note now t hs (hdb.2 t (findTicket_mem hf))))
    | closeOp tid an now =>
      obtain ⟨t, hf, hs, hteq, hdbeq⟩ := closeTicket_ok_inv hstep
      subst hdbeq
      exact dbInv_of_tickets_eq rfl
        (dbInv_updateTicket db tid (fClose now) t hdb hf (fClose_ID now)
          (lifecycleInv_fClose now t hs (hdb.2 t (findTicket_mem hf))))
    | escalateOp tid r an now =>
      obtain ⟨t, np, hf, hs, hnp, hteq, hdbeq⟩ := escalateTicket_ok_inv hstep
      subst hdbeq
      exact dbInv_of_tickets_eq rfl
        (dbInv_updateTicket db tid (fEscalate np) t hdb hf
          (fEscalate_ID _)
          (lifecycleInv_fEscalate _ t hs (hdb.2 t (findTicket_mem hf))))
    | reopenOp tid r an now =>
      obtain ⟨t, hf, hs, hr, hteq, hdbeq⟩ := reopenTicket_ok_inv hstep
      subst hdbeq
      exact dbInv_of_tickets_eq rfl
        (dbInv_updateTicket db tid fReopen t hdb hf fReopen_ID
          (lifecycleInv_fReopen t))

theorem dbInv_run (db : DB) (ops : List Op) (hdb : dbInv db) : dbInv (run db ops) := by
  induction ops generalizing db with
  | nil => exact hdb
  | cons op ops ih => exact ih (applyOp db op) (dbInv_applyOp db op hdb)

/-! ### Concrete scenario fixtures -/

/-- An active agent used by the concrete scenarios. -/
def agentAna : Agent := { ID := 1, name := "Ana", isActive := true }

/-- An empty ticket store with one active agent. -/
def dbEmpty : DB :=
  { tickets := [], agents := [agentAna], categories := [], comments := [],
    auditLogs := [] }

/-- A valid `CREATE Tickets` payload. -/
def cdPrinter : CreateData :=
  { ID := 1, title := some "Printer broken",
    description := some "The printer is broken badly",
    priority := some "LOW", category := none, department := none,
    reporter := some 7 }

/-- Scenario: create a ticket, resolve it, then close it. -/
def opsCloseSeq : List Op :=
  [Op.createOp cdPrinter { year := 2024, t := 1 },
   Op.resolveOp 1 (some "Replaced the fuser unit") none { year := 2024, t := 2 },
   Op.closeOp 1 none { year := 2024, t := 3 }]

/-- Scenario: create a ticket, resolve it, then assign an agent to it. -/
def opsAssignSeq : List Op :=
  [Op.createOp cdPrinter { year := 2024, t := 1 },
   Op.resolveOp 1 (some "Replaced the fuser unit") none { year := 2024, t := 2 },
   Op.assignOp 1 1 none { year := 2024, t := 3 }]

/-- The ticket state after create, resolve, close. -/
def ticketAfterClose : Ticket :=
  { ID := 1, ticketNumber := "TKT-2024-00001", title := "Printer broken",
    description := "The printer is broken badly", status := "CLOSED",
    priority := "LOW", category := none, department := none, reporter := some 7,
    assignedTo := none, resolvedAt := some { year := 2024, t := 2 },
    closedAt := some { year := 2024, t := 3 }, dueDate := none,
    resolutionNote := some "Replaced the fuser unit",
    createdAt := { year := 2024, t := 1 } }

/-- The ticket state after create, resolve, assign. -/
def ticketAfterAssign : Ticket :=
  { ID := 1, ticketNumber := "TKT-2024-00001", title := "Printer broken",
    description := "The printer is broken badly", status := "IN_PROGRESS",
    priority := "LOW", category := none, department := none, reporter := some 7,
    assignedTo := some 1, resolvedAt := some { year := 2024, t := 2 },
    closedAt := none, dueDate := none,
    resolutionNote := some "Replaced the fuser unit",
    createdAt := { year := 2024, t := 1 } }

/-! ### Claim C1 -/

/-- Claim C1 counterexample: after create, resolve, close, the ticket is CLOSED
but still carries `resolvedAt`, and after create, resolve, assignAgent it is
IN_PROGRESS and still carries `resolvedAt`; both states violate the claimed
"set if and only if RESOLVED/CLOSED" invariant. -/
theorem c1_counterexample :
    (run dbEmpty opsCloseSeq).tickets = [ticketAfterClose] ∧
    ¬ claimInv ticketAfterClose ∧
    (run dbEmpty opsAssignSeq).tickets = [ticketAfterAssign] ∧
    ¬ claimInv ticketAfterAssign := by
  refine ⟨by decide, by decide, by decide, by decide⟩

/-- Claim C1 (amended): over every sequence of lifecycle operations from a
well-formed store, every ticket satisfies: `closedAt` is set iff the status is
CLOSED, and a RESOLVED or CLOSED ticket always carries `resolvedAt`
(`closeTicket` keeps `resolvedAt`, and `assignAgent` on a RESOLVED ticket keeps
it on an IN_PROGRESS ticket, so "resolvedAt iff RESOLVED" does not hold;
`reopenTicket` clears both timestamps). -/
theorem c1_lifecycle_inv (db : DB) (hdb : dbInv db) (ops : List Op) :
    ∀ t ∈ (run db ops).tickets, lifecycleInv t :=
  fun t ht => (dbInv_run db ops hdb).2 t ht

/-- Witness for C1: the amended invariant holds on a concrete run. -/
theorem c1_lifecycle_inv_witness :
    dbInv dbEmpty ∧ lifecycleInv ticketAfterClose :=
  ⟨by decide, c1_lifecycle_inv dbEmpty (by decide) opsCloseSeq ticketAfterClose
    (by decide)⟩

/-! ### Claim C2 -/

/-- Claim C2 (confirmed): for an existing ticket, `closeTicket` succeeds exactly
when the current status is RESOLVED, setting status CLOSED and `closedAt` to the
current time; for every other status it raises a 409 conflict and the store is
left unchanged. -/
theorem c2_closeTicket_iff (db : DB) (tid : Nat) (an : Option String) (now : Time)
    (t : Ticket) (hf : findTicket db tid = some t) :
    (t.status = "RESOLVED" →
      closeTicket db tid an now =
        Except.ok (logAudit (updateTicket db tid (fClose now)) tid "Ticket Closed"
          (some "RESOLVED") (some "CLOSED") (jsOr an "System") now, fClose now t) ∧
      (fClose now t).status = "CLOSED" ∧ (fClose now t).closedAt = some now) ∧
    (¬ t.status = "RESOLVED" →
      (∃ m, closeTicket db tid an now = Except.error (SvcError.conflict m)) ∧
      applyOp db (Op.closeOp tid an now) = db) := by
  constructor
  · intro hs
    exact ⟨closeTicket_ok db tid an now t hf hs, rfl, rfl⟩
  · intro hs
    obtain ⟨m, hm⟩ := closeTicket_err db tid an now t hf hs
    refine ⟨⟨m, hm⟩, ?_⟩
    unfold applyOp
    simp only [step, hm]

/-- A store holding one RESOLVED ticket. -/
def ticketResolved : Ticket :=
  { ID := 1, ticketNumber := "TKT-2024-00001", title := "VPN is down",
    description := "Cannot connect to the VPN today", status := "RESOLVED",
    priority := "MEDIUM", category := none, department := none, reporter := some 7,
    assignedTo := none, resolvedAt := some { year := 2024, t := 5 },
    closedAt := none, dueDate := none,
    resolutionNote := some "Reset the account", createdAt := { year := 2024, t := 1 } }

/-- A store holding one RESOLVED ticket. -/
def dbResolved : DB :=
  { tickets := [ticketResolved], agents := [agentAna], categories := [],
    comments := [], auditLogs := [] }

/-- Witness for C2: closing the concrete RESOLVED ticket succeeds and stamps
`closedAt`. -/
theorem c2_closeTicket_witness :
    findTicket dbResolved 1 = some ticketResolved ∧
    ticketResolved.status = "RESOLVED" ∧
    (fClose { year := 2024, t := 9 } ticketResolved).status = "CLOSED" ∧
    (fClose { year := 2024, t := 9 } ticketResolved).closedAt =
      some { year := 2024, t := 9 } :=
  ⟨rfl, rfl,
    ((c2_closeTicket_iff dbResolved 1 none { year := 2024, t := 9 }
      ticketResolved rfl).1 rfl).2⟩

/-! ### More fixtures and result projections -/

/-- The ticket of a successful action result. -/
def resultTicket : Except SvcError (DB × Ticket) → Option Ticket
  | Except.ok x => some x.2
  | Except.error _ => none

/-- The error of a failed action result. -/
def errKind : Except SvcError (DB × Ticket) → Option SvcError
  | Except.ok _ => none
  | Except.error e => some e

/-- A store holding one OPEN ticket. -/
def ticketOpen : Ticket :=
  { ID := 1, ticketNumber := "TKT-2024-00001", title := "Laptop battery",
    description := "Battery drains within one hour", status := "OPEN",
    priority := "LOW", category := none, department := none, reporter := some 7,
    assignedTo := none, resolvedAt := none, closedAt := none, dueDate := none,
    resolutionNote := none, createdAt := { year := 2024, t := 1 } }

/-- A store holding one OPEN ticket. -/
def dbOpen : DB :=
  { tickets := [ticketOpen], agents := [agentAna], categories := [],
    comments := [], auditLogs := [] }

/-- A store holding one CLOSED ticket. -/
def ticketClosed : Ticket :=
  { ID := 1, ticketNumber := "TKT-2024-00001", title := "Screen flickers",
    description := "External screen flickers at high refresh", status := "CLOSED",
    priority := "MEDIUM", category := none, department := none, reporter := some 7,
    assignedTo := none, resolvedAt := some { year := 2024, t := 5 },
    closedAt := some { year := 2024, t := 6 }, dueDate := none,
    resolutionNote := some "Replaced the cable", createdAt := { year := 2024, t := 1 } }

/-- A store holding one CLOSED ticket. -/
def dbClosed : DB :=
  { tickets := [ticketClosed], agents := [agentAna], categories := [],
    comments := [], auditLogs := [] }

/-! ### Claim C3 -/

/-- A `CREATE Tickets` payload carrying the priority string "toString". -/
def cdStrange : CreateData :=
  { ID := 1, title := some "Strange priority",
    description := some "Ticket created with a strange priority string",
    priority := some "toString", category := none, department := none,
    reporter := some 7 }

/-- Claim C3 counterexample: for the priority string "toString" — storable,
since ticket creation never validates the priority — the `levels` lookup
returns the member inherited from `Object.prototype`, which is truthy, so the
`|| 'HIGH'` default does not fire and escalation does not map it to HIGH. -/
theorem c3_counterexample :
    ¬ "toString" ∈ validPriorities ∧
    (resultTicket (createTicket dbEmpty cdStrange { year := 2024, t := 1 })).map
        Ticket.priority = some "toString" ∧
    escalatePriority "toString" = JsVal.protoFn "toString" ∧
    escalatePriority "toString" ≠ JsVal.str "HIGH" := by
  refine ⟨by decide, by decide, by decide, by decide⟩

/-- Claim C3 (amended): for an existing ticket that is neither RESOLVED nor
CLOSED and whose priority makes the `levels` lookup yield a string,
`escalateTicket` bumps the priority along LOW, MEDIUM, HIGH, CRITICAL, CRITICAL
and sets the status to IN_PROGRESS; a RESOLVED or CLOSED ticket is blocked with
a 409 conflict and nothing changes. A priority outside the four defaults to
HIGH only when it is not an `Object.prototype` property name; for such a name
the lookup returns the inherited truthy member, no HIGH is produced, and the
handler passes a non-string to the update, so the escalation cannot succeed. -/
theorem c3_escalateTicket (db : DB) (tid : Nat) (r an : Option String)
    (now : Time) (t : Ticket) (hf : findTicket db tid = some t) :
    (∀ np, ¬ (t.status = "RESOLVED" ∨ t.status = "CLOSED") →
      escalatePriority t.priority = JsVal.str np →
      escalateTicket db tid r an now =
        Except.ok (logAudit (addComment
            (updateTicket db tid (fEscalate np))
            { ticket_ID := tid,
              content := "Ticket escalated. Reason: " ++ jsOr r "No reason provided",
              isInternal := true,
              authorName := jsOr an "System",
              authorEmail := "" })
            tid "Ticket Escalated" (some ("Priority: " ++ t.priority))
            (some ("Priority: " ++ np))
            (jsOr an "System") now,
          fEscalate np t) ∧
      (fEscalate np t).priority = np ∧
      (fEscalate np t).status = "IN_PROGRESS") ∧
    ((t.status = "RESOLVED" ∨ t.status = "CLOSED") →
      escalateTicket db tid r an now =
        Except.error (SvcError.conflict "Cannot escalate a resolved or closed ticket") ∧
      applyOp db (Op.escalateOp tid r an now) = db) ∧
    (escalatePriority "LOW" = JsVal.str "MEDIUM" ∧
      escalatePriority "MEDIUM" = JsVal.str "HIGH" ∧
      escalatePriority "HIGH" = JsVal.str "CRITICAL" ∧
      escalatePriority "CRITICAL" = JsVal.str "CRITICAL") ∧
    (∀ p, ¬ p ∈ validPriorities → ¬ p ∈ objectProtoKeys →
      escalatePriority p = JsVal.str "HIGH") ∧
    (∀ p, ¬ p ∈ validPriorities → p ∈ objectProtoKeys →
      escalatePriority p = JsVal.protoFn p) ∧
    (¬ (t.status = "RESOLVED" ∨ t.status = "CLOSED") →
      ¬ t.priority ∈ validPriorities → t.priority ∈ objectProtoKeys →
      escalateTicket db tid r an now =
        Except.error (SvcError.jsError
          ("Priority lookup returned the inherited member " ++ t.priority))) := by
  refine ⟨?_, ?_, by decide, ?_, ?_, ?_⟩
  · intro np hs hnp
    exact ⟨escalateTicket_ok db tid r an now t np hf hs hnp, rfl, rfl⟩
  · intro hs
    have hm := escalateTicket_conflict db tid r an now t hf hs
    exact ⟨hm, by unfold applyOp; simp only [step, hm]⟩
  · intro p hp hproto
    simp only [validPriorities, List.mem_cons, List.not_mem_nil, or_false,
      not_or] at hp
    obtain ⟨h1, h2, h3, h4⟩ := hp
    simp only [escalatePriority, if_neg h1, if_neg h2, if_neg h3, if_neg h4,
      if_neg hproto]
  · intro p hp hproto
    simp only [validPriorities, List.mem_cons, List.not_mem_nil, or_false,
      not_or] at hp
    obtain ⟨h1, h2, h3, h4⟩ := hp
    simp only [escalatePriority, if_neg h1, if_neg h2, if_neg h3, if_neg h4,
      if_pos hproto]
  · intro hs hv hp
    have hnp : escalatePriority t.priority = JsVal.protoFn t.priority := by
      simp only [validPriorities, List.mem_cons, List.not_mem_nil, or_false,
        not_or] at hv
      obtain ⟨h1, h2, h3, h4⟩ := hv
      simp only [escalatePriority, if_neg h1, if_neg h2, if_neg h3, if_neg h4,
        if_pos hp]
    exact escalateTicket_protoFn db tid r an now t t.priority hf hs hnp

/-- Witness for C3: escalating the concrete OPEN LOW ticket yields MEDIUM and
IN_PROGRESS. -/
theorem c3_escalateTicket_witness :
    findTicket dbOpen 1 = some ticketOpen ∧
    ¬ (ticketOpen.status = "RESOLVED" ∨ ticketOpen.status = "CLOSED") ∧
    escalatePriority ticketOpen.priority = JsVal.str "MEDIUM" ∧
    ((fEscalate "MEDIUM" ticketOpen).priority = "MEDIUM" ∧
     (fEscalate "MEDIUM" ticketOpen).status = "IN_PROGRESS") :=
  ⟨rfl, by decide, by decide,
    ((c3_escalateTicket dbOpen 1 none none { year := 2024, t := 9 } ticketOpen
      rfl).1 "MEDIUM" (by decide) (by decide)).2⟩

/-! ### Claim C4 -/

/-- Modelled from the spec: "sequential counter per calendar year" — a
numbering whose sequence counts only the tickets created in the current
calendar year. -/
def specTicketNumber (db : DB) (now : Time) : String :=
  "TKT-" ++ toString now.year ++ "-" ++
    padStart5 ((db.tickets.filter (fun t => t.createdAt.year == now.year)).length + 1)

/-- A valid `CREATE Tickets` payload with key 2. -/
def cdNetwork : CreateData :=
  { ID := 2, title := some "Network outage",
    description := some "The office network is down",
    priority := none, category := none, department := none, reporter := some 3 }

/-- Claim C4 counterexample: creating the first ticket of 2025 in a store whose
only existing ticket was created in 2024 yields TKT-2025-00002 (global count),
not the TKT-2025-00001 a per-calendar-year counter would give. -/
theorem c4_counterexample :
    ticketResolved.createdAt.year = 2024 ∧
    (resultTicket (createTicket dbResolved cdNetwork { year := 2025, t := 50 })).map
        Ticket.ticketNumber = some "TKT-2025-00002" ∧
    specTicketNumber dbResolved { year := 2025, t := 50 } = "TKT-2025-00001" := by
  refine ⟨by decide, by decide, by decide⟩

/-- Claim C4 (amended): every successful creation assigns
`TKT-<current year>-<5-digit zero-padded (N+1)>` where N is the count of all
existing tickets regardless of their creation year; only the year text tracks
the calendar year, the sequence never restarts. -/
theorem c4_global_sequence (db : DB) (d : CreateData) (now : Time) (db' : DB)
    (t' : Ticket) (h : createTicket db d now = Except.ok (db', t')) :
    t'.ticketNumber =
      "TKT-" ++ toString now.year ++ "-" ++ padStart5 (db.tickets.length + 1) := by
  obtain ⟨ht, hd2, hr, hid, hteq, hdbeq⟩ := createTicket_ok_inv h
  subst hteq
  rfl

/-- The store state after creating `cdPrinter` in the empty store. -/
def ticketAfterCreate : Ticket :=
  { ID := 1, ticketNumber := "TKT-2024-00001", title := "Printer broken",
    description := "The printer is broken badly", status := "OPEN",
    priority := "LOW", category := none, department := none, reporter := some 7,
    assignedTo := none, resolvedAt := none, closedAt := none, dueDate := none,
    resolutionNote := none, createdAt := { year := 2024, t := 1 } }

/-- The store state after creating `cdPrinter` in the empty store. -/
def dbAfterCreate : DB :=
  { tickets := [ticketAfterCreate], agents := [agentAna], categories := [],
    comments := [],
    auditLogs := [{ ticket_ID := 1, action := "Ticket Created", oldValue := none,
                    newValue := some "OPEN", performedBy := "System",
                    performedAt := { year := 2024, t := 1 } }] }

/-- Witness for C4: the first creation in the empty store is numbered from the
global count. -/
theorem c4_global_sequence_witness :
    createTicket dbEmpty cdPrinter { year := 2024, t := 1 } =
      Except.ok (dbAfterCreate, ticketAfterCreate) ∧
    ticketAfterCreate.ticketNumber =
      "TKT-" ++ toString (2024 : Nat) ++ "-" ++ padStart5 (dbEmpty.tickets.length + 1) :=
  ⟨rfl, c4_global_sequence dbEmpty cdPrinter { year := 2024, t := 1 }
    dbAfterCreate ticketAfterCreate rfl⟩

/-! ### Claim C5 -/

/-- Claim C5 counterexample: a resolve attempt with a 4-character note on a
RESOLVED ticket is rejected with 409 conflict, not the claimed 400 validation
error — the status check runs before the note check. -/
theorem c5_counterexample :
    tooShort (some "Done") 10 = true ∧
    ticketResolved.status = "RESOLVED" ∧
    errKind (resolveTicket dbResolved 1 (some "Done") none { year := 2024, t := 9 })
      = some (SvcError.conflict "Ticket is already resolved or closed") := by
  refine ⟨by decide, by decide, by decide⟩

/-- Claim C5 (amended): a resolve attempt whose note is missing or shorter than
10 characters after trimming leaves the ticket unchanged, and it raises the 400
validation error only when the ticket is not already RESOLVED or CLOSED; on a
RESOLVED or CLOSED ticket the 409 conflict check fires first (still with no
state change). -/
theorem c5_resolve_validation (db : DB) (tid : Nat) (note an : Option String)
    (now : Time) (t : Ticket) (hf : findTicket db tid = some t)
    (hshort : tooShort note 10 = true) :
    (¬ (t.status = "RESOLVED" ∨ t.status = "CLOSED") →
      resolveTicket db tid note an now =
        Except.error (SvcError.validation
          "Resolution note must be at least 10 characters long") ∧
      applyOp db (Op.resolveOp tid note an now) = db) ∧
    ((t.status = "RESOLVED" ∨ t.status = "CLOSED") →
      resolveTicket db tid note an now =
        Except.error (SvcError.conflict "Ticket is already resolved or closed") ∧
      applyOp db (Op.resolveOp tid note an now) = db) := by
  constructor
  · intro hs
    have hm := resolveTicket_validation db tid note an now t hf hs hshort
    exact ⟨hm, by unfold applyOp; simp only [step, hm]⟩
  · intro hs
    have hm := resolveTicket_conflict db tid note an now t hf hs
    exact ⟨hm, by unfold applyOp; simp only [step, hm]⟩

/-- Witness for C5: a short note on the concrete OPEN ticket raises the
validation error and leaves the store unchanged. -/
theorem c5_resolve_validation_witness :
    findTicket dbOpen 1 = some ticketOpen ∧
    tooShort (some "Done") 10 = true ∧
    (resolveTicket dbOpen 1 (some "Done") none { year := 2024, t := 9 } =
      Except.error (SvcError.validation
        "Resolution note must be at least 10 characters long") ∧
     applyOp dbOpen (Op.resolveOp 1 (some "Done") none { year := 2024, t := 9 })
       = dbOpen) :=
  ⟨rfl, by decide,
    (c5_resolve_validation dbOpen 1 (some "Done") none { year := 2024, t := 9 }
      ticketOpen rfl (by decide)).1 (by decide)⟩

/-! ### Claim C6 -/

/-- Claim C6 (confirmed): a generic update request against an existing CLOSED
ticket is rejected with a 409 conflict whatever the payload changes, and the
store is left unchanged. -/
theorem c6_update_closed (db : DB) (id : Nat) (payload : Ticket → Ticket)
    (t : Ticket) (hf : findTicket db id = some t) (hs : t.status = "CLOSED") :
    updateTickets db id payload =
      Except.error (SvcError.conflict "Ticket is closed and cannot be modified") ∧
    applyUpdate db id payload = db := by
  have hm := updateTickets_closed db id payload t hf hs
  refine ⟨hm, ?_⟩
  unfold applyUpdate
  rw [hm]

/-- Witness for C6: updating the concrete CLOSED ticket (retitling it) is
rejected and changes nothing. -/
theorem c6_update_closed_witness :
    findTicket dbClosed 1 = some ticketClosed ∧
    ticketClosed.status = "CLOSED" ∧
    (updateTickets dbClosed 1 (fun u => { u with title := "New title" }) =
      Except.error (SvcError.conflict "Ticket is closed and cannot be modified") ∧
     applyUpdate dbClosed 1 (fun u => { u with title := "New title" }) = dbClosed) :=
  ⟨rfl, rfl,
    c6_update_closed dbClosed 1 (fun u => { u with title := "New title" })
      ticketClosed rfl rfl⟩

/-! ### Claim C7 -/

/-- Claim C7 (confirmed): every successful lifecycle request appends exactly one
new audit record, referencing the affected ticket, and leaves all earlier audit
records in place unchanged. -/
theorem c7_audit_append (db : DB) (op : Op) (db' : DB) (t' : Ticket)
    (h : step db op = Except.ok (db', t')) :
    ∃ e, db'.auditLogs = db.auditLogs ++ [e] ∧ e.ticket_ID = opTicketID op ∧
      t'.ID = opTicketID op := by
  cases op with
  | createOp d now =>
    obtain ⟨ht, hd2, hr, hid, hteq, hdbeq⟩ := createTicket_ok_inv h
    subst hdbeq hteq
    exact ⟨_, rfl, rfl, rfl⟩
  | assignOp tid aid r now =>
    obtain ⟨t, agent, hf, hc, ha, hteq, hdbeq⟩ := assignAgent_ok_inv h
    subst hdbeq hteq
    exact ⟨_, rfl, rfl, show t.ID = tid from findTicket_id hf⟩
  | priorityOp tid p r now =>
    obtain ⟨t, hp, hf, hteq, hdbeq⟩ := changePriority_ok_inv h
    subst hdbeq hteq
    exact ⟨_, rfl, rfl, show t.ID = tid from findTicket_id hf⟩
  | resolveOp tid note an now =>
    obtain ⟨t, hf, hs, hn, hteq, hdbeq⟩ := resolveTicket_ok_inv h
    subst hdbeq hteq
    exact ⟨_, rfl, rfl, show t.ID = tid from findTicket_id hf⟩
  | closeOp tid an now =>
    obtain ⟨t, hf, hs, hteq, hdbeq⟩ := closeTicket_ok_inv h
    subst hdbeq hteq
    exact ⟨_, rfl, rfl, show t.ID = tid from findTicket_id hf⟩
  | escalateOp tid r an now =>
    obtain ⟨t, np, hf, hs, hnp, hteq, hdbeq⟩ := escalateTicket_ok_inv h
    subst hdbeq hteq
    exact ⟨_, rfl, rfl, show t.ID = tid from findTicket_id hf⟩
  | reopenOp tid r an now =>
    obtain ⟨t, hf, hs, hr, hteq, hdbeq⟩ := reopenTicket_ok_inv h
    subst hdbeq hteq
    exact ⟨_, rfl, rfl, show t.ID = tid from findTicket_id hf⟩

/-- Witness for C7: the concrete creation appends exactly one audit record for
ticket 1. -/
theorem c7_audit_append_witness :
    step dbEmpty (Op.createOp cdPrinter { year := 2024, t := 1 }) =
      Except.ok (dbAfterCreate, ticketAfterCreate) ∧
    (∃ e, dbAfterCreate.auditLogs = dbEmpty.auditLogs ++ [e] ∧
      e.ticket_ID = opTicketID (Op.createOp cdPrinter { year := 2024, t := 1 }) ∧
      ticketAfterCreate.ID =
        opTicketID (Op.createOp cdPrinter { year := 2024, t := 1 })) :=
  ⟨rfl, c7_audit_append dbEmpty (Op.createOp cdPrinter { year := 2024, t := 1 })
    dbAfterCreate ticketAfterCreate rfl⟩

/-! ### Claim C8 -/

/-- Claim C8 (confirmed): `reopenTicket` on a RESOLVED or CLOSED ticket with a
reason of at least 5 characters after trimming sets the status to OPEN and
clears `resolvedAt`, `closedAt` and `resolutionNote`; with a shorter or missing
reason it raises a 400 validation error, on any other status a 409 conflict,
and in both error cases the store is unchanged. -/
theorem c8_reopenTicket (db : DB) (tid : Nat) (r an : Option String)
    (now : Time) (t : Ticket) (hf : findTicket db tid = some t) :
    ((t.status = "RESOLVED" ∨ t.status = "CLOSED") → tooShort r 5 = false →
      reopenTicket db tid r an now =
        Except.ok (logAudit (addComment (updateTicket db tid fReopen)
            { ticket_ID := tid,
              content := "Ticket reopened. Reason: " ++ jsOr r "",
              isInternal := false,
              authorName := jsOr an "System",
              authorEmail := "" })
            tid "Ticket Reopened" (some t.status) (some "OPEN")
            (jsOr an "System") now,
          fReopen t) ∧
      (fReopen t).status = "OPEN" ∧ (fReopen t).resolvedAt = none ∧
      (fReopen t).closedAt = none ∧ (fReopen t).resolutionNote = none) ∧
    ((t.status = "RESOLVED" ∨ t.status = "CLOSED") → tooShort r 5 = true →
      reopenTicket db tid r an now =
        Except.error (SvcError.validation
          "A reason must be provided to reopen a ticket") ∧
      applyOp db (Op.reopenOp tid r an now) = db) ∧
    (¬ (t.status = "RESOLVED" ∨ t.status = "CLOSED") →
      reopenTicket db tid r an now =
        Except.error (SvcError.conflict
          "Only resolved or closed tickets can be reopened") ∧
      applyOp db (Op.reopenOp tid r an now) = db) := by
  refine ⟨?_, ?_, ?_⟩
  · intro hs hr
    exact ⟨reopenTicket_ok db tid r an now t hf hs hr, rfl, rfl, rfl, rfl⟩
  · intro hs hr
    have hm := reopenTicket_validation db tid r an now t hf hs hr
    exact ⟨hm, by unfold applyOp; simp only [step, hm]⟩
  · intro hs
    have hm := reopenTicket_conflict db tid r an now t hf hs
    exact ⟨hm, by unfold applyOp; simp only [step, hm]⟩

/-- Witness for C8: reopening the concrete CLOSED ticket with a long enough
reason clears all three fields. -/
theorem c8_reopenTicket_witness :
    findTicket dbClosed 1 = some ticketClosed ∧
    (ticketClosed.status = "RESOLVED" ∨ ticketClosed.status = "CLOSED") ∧
    tooShort (some "Issue came back") 5 = false ∧
    ((fReopen ticketClosed).status = "OPEN" ∧
     (fReopen ticketClosed).resolvedAt = none ∧
     (fReopen ticketClosed).closedAt = none ∧
     (fReopen ticketClosed).resolutionNote = none) :=
  ⟨rfl, by decide, by decide,
    ((c8_reopenTicket dbClosed 1 (some "Issue came back") none
      { year := 2024, t := 9 } ticketClosed rfl).1 (by decide) (by decide)).2⟩

/-! ### Claim C9 -/

/-- Modelled from the spec: the severity order LOW < MEDIUM < HIGH < CRITICAL
used by the spec when it says "ordered by priority descending". -/
def specPriorityRank (p : String) : Nat :=
  if p = "LOW" then 0
  else if p = "MEDIUM" then 1
  else if p = "HIGH" then 2
  else if p = "CRITICAL" then 3
  else 0

/-- An OPEN CRITICAL ticket assigned to agent 1, created first. -/
def ticketCrit : Ticket :=
  { ID := 1, ticketNumber := "TKT-2024-00001", title := "Server down",
    description := "Production server is not responding", status := "OPEN",
    priority := "CRITICAL", category := none, department := none,
    reporter := some 7, assignedTo := some 1, resolvedAt := none,
    closedAt := none, dueDate := none, resolutionNote := none,
    createdAt := { year := 2024, t := 1 } }

/-- An OPEN MEDIUM ticket assigned to agent 1, created second. -/
def ticketMed : Ticket :=
  { ID := 2, ticketNumber := "TKT-2024-00002", title := "Mouse broken",
    description := "The mouse wheel stopped working", status := "OPEN",
    priority := "MEDIUM", category := none, department := none,
    reporter := some 7, assignedTo := some 1, resolvedAt := none,
    closedAt := none, dueDate := none, resolutionNote := none,
    createdAt := { year := 2024, t := 2 } }

/-- A store in which agent 1 has one CRITICAL and one MEDIUM open ticket. -/
def dbAgentQueue : DB :=
  { tickets := [ticketCrit, ticketMed], agents := [agentAna], categories := [],
    comments := [], auditLogs := [] }

/-- Claim C9 (code bug): `priority` is a string column, so
`orderBy('priority desc')` sorts by descending lexicographic string order, which
puts MEDIUM before CRITICAL — not the severity order LOW < MEDIUM < HIGH <
CRITICAL the spec describes, under which CRITICAL would come first. -/
theorem c9_priority_order_bug :
    getAgentTickets dbAgentQueue 1 = [ticketMed, ticketCrit] ∧
    ticketMed.priority = "MEDIUM" ∧ ticketCrit.priority = "CRITICAL" ∧
    specPriorityRank "MEDIUM" < specPriorityRank "CRITICAL" ∧
    strLT "CRITICAL" "MEDIUM" = true := by
  refine ⟨by decide, rfl, rfl, by decide, by decide⟩

/-! ### Claim C10 -/

/-- Claim C10 counterexample: `reopenTicket` also mutates a CLOSED ticket
successfully, so `changePriority` is not the only mutating path that a closed
ticket fails to block. -/
theorem c10_counterexample :
    ticketClosed.status = "CLOSED" ∧
    applyOp dbClosed (Op.reopenOp 1 (some "Issue came back") none
      { year := 2024, t := 9 }) ≠ dbClosed := by
  refine ⟨rfl, by decide⟩

/-- Claim C10 (amended): `changePriority` performs no status check: on any
existing ticket, CLOSED or RESOLVED included, a call with a valid priority
succeeds, updates the priority and leaves the status unchanged, and it fails
only on an unrecognized priority (400) or a missing ticket (404); on a CLOSED
ticket every other lifecycle mutation except `reopenTicket` is blocked with a
409 conflict, so `changePriority` is one of exactly two mutating paths (with
`reopenTicket`) that succeed on a closed ticket. -/
theorem c10_changePriority_unguarded (db : DB) (tid : Nat) (p : String)
    (r : Option String) (now : Time) (t : Ticket)
    (hf : findTicket db tid = some t) :
    (validPriorities.contains p = true →
      changePriority db tid p r now =
        Except.ok (logAudit (updateTicket db tid (fPriority p)) tid
          "Priority Changed" (some t.priority) (some p) (jsOr r "System") now,
          fPriority p t) ∧
      (fPriority p t).priority = p ∧ (fPriority p t).status = t.status) ∧
    (validPriorities.contains p = false →
      changePriority db tid p r now =
        Except.error (SvcError.validation "Invalid priority")) ∧
    (∀ tid2, findTicket db tid2 = none → validPriorities.contains p = true →
      changePriority db tid2 p r now =
        Except.error (SvcError.notFound "Ticket not found")) ∧
    (t.status = "CLOSED" →
      (∀ aid rem, ∃ m, assignAgent db tid aid rem now =
        Except.error (SvcError.conflict m)) ∧
      (∀ note an2, ∃ m, resolveTicket db tid note an2 now =
        Except.error (SvcError.conflict m)) ∧
      (∀ an2, ∃ m, closeTicket db tid an2 now =
        Except.error (SvcError.conflict m)) ∧
      (∀ rr an2, ∃ m, escalateTicket db tid rr an2 now =
        Except.error (SvcError.conflict m)) ∧
      (∀ payload, ∃ m, updateTickets db tid payload =
        Except.error (SvcError.conflict m)) ∧
      (∀ rr an2, tooShort rr 5 = false →
        ∃ x, reopenTicket db tid rr an2 now = Except.ok x)) := by
  refine ⟨?_, ?_, ?_, ?_⟩
  · intro hp
    exact ⟨changePriority_ok db tid p r now t hf hp, rfl, rfl⟩
  · intro hp
    exact changePriority_invalid db tid p r now hp
  · intro tid2 hf2 hp
    exact changePriority_missing db tid2 p r now hf2 hp
  · intro hs
    refine ⟨?_, ?_, ?_, ?_, ?_, ?_⟩
    · intro aid rem
      exact ⟨_, assignAgent_closed db tid aid rem now t hf hs⟩
    · intro note an2
      exact ⟨_, resolveTicket_conflict db tid note an2 now t hf (Or.inr hs)⟩
    · intro an2
      exact closeTicket_err db tid an2 now t hf (by rw [hs]; decide)
    · intro rr an2
      exact ⟨_, escalateTicket_conflict db tid rr an2 now t hf (Or.inr hs)⟩
    · intro payload
      exact ⟨_, updateTickets_closed db tid payload t hf hs⟩
    · intro rr an2 hrr
      exact ⟨_, reopenTicket_ok db tid rr an2 now t hf (Or.inr hs) hrr⟩

/-- Witness for C10: changing the concrete CLOSED ticket's priority to HIGH
succeeds and leaves the status CLOSED. -/
theorem c10_changePriority_witness :
    findTicket dbClosed 1 = some ticketClosed ∧
    validPriorities.contains "HIGH" = true ∧
    ((fPriority "HIGH" ticketClosed).priority = "HIGH" ∧
     (fPriority "HIGH" ticketClosed).status = ticketClosed.status) :=
  ⟨rfl, by decide,
    ((c10_changePriority_unguarded dbClosed 1 "HIGH" none { year := 2024, t := 9 }
      ticketClosed rfl).1 (by decide)).2⟩
